import Mathlib

/-!
Verification development for the mystem wrapper library (Rust crate
`mystem-rs`).  The data model and operations below are a shallow embedding
of `src/grammems.rs`, `src/error.rs` and `src/lib.rs`: pure Rust functions
become Lean functions, the mutable process handle of `MyStem` becomes
explicit state passing, `Result` becomes `Except`-like constructors, and a
Rust panic (`unwrap` on `Err`/`None`, out-of-bounds index) becomes the
explicit `DResult.panic` outcome.  External collaborators (the spawned
worker process, `serde_json`'s parser, Rust's Unicode `char` classification)
are modelled as oracle parameters or documented finite models.
-/

namespace Mystem

/-- From `src/error.rs`: `PopenError` of the `subprocess` crate, kept
abstract as a message-carrying wrapper. -/
structure PopenError where
  msg : String
deriving DecidableEq, Repr

/-- From `src/error.rs`: the `AppError` enum. -/
inductive AppError where
  | PartOfSpeechError (msg : String)
  | GrammemError (msg : String)
  | PopenErr (e : PopenError)
  | MystemError (msg : String)
deriving DecidableEq, Repr

/-- From `src/grammems.rs` lines 34-63: the `PartOfSpeech` enum. -/
inductive PartOfSpeech where
  | Adjective
  | Adverb
  | AdverbPronominal
  | AdjectiveNumeral
  | AdjectivePronoun
  | Composite
  | Conjunction
  | Interjection
  | Numeral
  | Particle
  | Preposition
  | Noun
  | AdjectiveNoun
  | Verb
deriving DecidableEq, Repr

/-- From `src/grammems.rs`: the `Case` enum. -/
inductive Case where
  | Nominative | Genitive | Dative | Accusative | Instrumental
  | Prepositional | Partitive | Locative | Vocative
deriving DecidableEq, Repr

/-- From `src/grammems.rs`: the `Tense` enum. -/
inductive Tense where
  | Present | Inpresent | Past
deriving DecidableEq, Repr

/-- From `src/grammems.rs`: the `Plurality` enum. -/
inductive Plurality where
  | Plural | Singular
deriving DecidableEq, Repr

/-- From `src/grammems.rs`: the `Mood` enum. -/
inductive Mood where
  | Gerunds | Infinitive | Participle | Indicative | Imperative
deriving DecidableEq, Repr

/-- From `src/grammems.rs`: the `Adjective` (form) enum. -/
inductive Adjective where
  | Short | Long | Possessive
deriving DecidableEq, Repr

/-- From `src/grammems.rs`: the `ComparativeDegree` enum. -/
inductive ComparativeDegree where
  | Superlative | Comparative
deriving DecidableEq, Repr

/-- From `src/grammems.rs`: the `Person` enum. -/
inductive Person where
  | First | Second | Third
deriving DecidableEq, Repr

/-- From `src/grammems.rs`: the `Gender` enum. -/
inductive Gender where
  | Masculine | Feminine | Neuter
deriving DecidableEq, Repr

/-- From `src/grammems.rs`: the `PerfectiveAspect` enum. -/
inductive PerfectiveAspect where
  | Perfective | Imperfective
deriving DecidableEq, Repr

/-- From `src/grammems.rs`: the `Voice` enum. -/
inductive Voice where
  | Passive | Active
deriving DecidableEq, Repr

/-- From `src/grammems.rs`: the `Animacy` enum. -/
inductive Animacy where
  | Animate | Inanimate
deriving DecidableEq, Repr

/-- From `src/grammems.rs`: the `Transitivity` enum. -/
inductive Transitivity where
  | Transitive | Intransitive
deriving DecidableEq, Repr

/-- From `src/grammems.rs`: the `Other` enum of pragmatic markers. -/
inductive Other where
  | Parenthesis | Geo | Awkward | ProperNoun | Distorted | CommonForm
  | Obscene | Patronymic | Predicative | Informal | Rare | Abbreviation
  | Obsolete | FamilyName
deriving DecidableEq, Repr

/-- From `src/grammems.rs` lines 93-120: the `Fact` tagged union. -/
inductive Fact where
  | Case (c : Case)
  | Tense (t : Tense)
  | Plurality (p : Plurality)
  | Mood (m : Mood)
  | Adjective (a : Adjective)
  | ComparativeDegree (c : ComparativeDegree)
  | Person (p : Person)
  | Gender (g : Gender)
  | PerfectiveAspect (p : PerfectiveAspect)
  | Voice (v : Voice)
  | Animacy (a : Animacy)
  | Transitivity (t : Transitivity)
  | Other (o : Other)
deriving DecidableEq, Repr

/-- From `src/grammems.rs` lines 23-30: the `Grammem` struct. -/
structure Grammem where
  part_of_speech : PartOfSpeech
  facts : List Fact
  facts_raw : List String
deriving DecidableEq, Repr

/-- From `src/grammems.rs` lines 64-85: `impl FromStr for PartOfSpeech`. -/
def PartOfSpeech.from_str (input : String) : Except AppError PartOfSpeech :=
  match input with
  | "A" => .ok PartOfSpeech.Adjective
  | "ADV" => .ok PartOfSpeech.Adverb
  | "ADVPRO" => .ok PartOfSpeech.AdverbPronominal
  | "ANUM" => .ok PartOfSpeech.AdjectiveNumeral
  | "APRO" => .ok PartOfSpeech.AdjectivePronoun
  | "COM" => .ok PartOfSpeech.Composite
  | "CONJ" => .ok PartOfSpeech.Conjunction
  | "INTJ" => .ok PartOfSpeech.Interjection
  | "NUM" => .ok PartOfSpeech.Numeral
  | "PART" => .ok PartOfSpeech.Particle
  | "PR" => .ok PartOfSpeech.Preposition
  | "S" => .ok PartOfSpeech.Noun
  | "SPRO" => .ok PartOfSpeech.AdjectiveNoun
  | "V" => .ok PartOfSpeech.Verb
  | _ => .error (AppError.PartOfSpeechError "Failed to get Part of Speech.")

/-- From `src/grammems.rs` lines 296-356: `impl FromStr for Fact`. -/
def Fact.from_str (input : String) : Except AppError Fact :=
  match input with
  | "nom" => .ok (Fact.Case .Nominative)
  | "gen" => .ok (Fact.Case .Genitive)
  | "dat" => .ok (Fact.Case .Dative)
  | "acc" => .ok (Fact.Case .Accusative)
  | "ins" => .ok (Fact.Case .Instrumental)
  | "abl" => .ok (Fact.Case .Prepositional)
  | "part" => .ok (Fact.Case .Partitive)
  | "loc" => .ok (Fact.Case .Locative)
  | "voc" => .ok (Fact.Case .Vocative)
  | "praes" => .ok (Fact.Tense .Present)
  | "inpraes" => .ok (Fact.Tense .Inpresent)
  | "praet" => .ok (Fact.Tense .Past)
  | "sg" => .ok (Fact.Plurality .Singular)
  | "pl" => .ok (Fact.Plurality .Plural)
  | "ger" => .ok (Fact.Mood .Gerunds)
  | "inf" => .ok (Fact.Mood .Infinitive)
  | "partcp" => .ok (Fact.Mood .Participle)
  | "indic" => .ok (Fact.Mood .Indicative)
  | "imper" => .ok (Fact.Mood .Imperative)
  | "brev" => .ok (Fact.Adjective .Short)
  | "plen" => .ok (Fact.Adjective .Long)
  | "poss" => .ok (Fact.Adjective .Possessive)
  | "supr" => .ok (Fact.ComparativeDegree .Superlative)
  | "comp" => .ok (Fact.ComparativeDegree .Comparative)
  | "1p" => .ok (Fact.Person .First)
  | "2p" => .ok (Fact.Person .Second)
  | "3p" => .ok (Fact.Person .Third)
  | "m" => .ok (Fact.Gender .Masculine)
  | "f" => .ok (Fact.Gender .Feminine)
  | "n" => .ok (Fact.Gender .Neuter)
  | "pf" => .ok (Fact.PerfectiveAspect .Perfective)
  | "ipf" => .ok (Fact.PerfectiveAspect .Imperfective)
  | "act" => .ok (Fact.Voice .Active)
  | "pass" => .ok (Fact.Voice .Passive)
  | "anim" => .ok (Fact.Animacy .Animate)
  | "inan" => .ok (Fact.Animacy .Inanimate)
  | "tran" => .ok (Fact.Transitivity .Transitive)
  | "intr" => .ok (Fact.Transitivity .Intransitive)
  | "parenth" => .ok (Fact.Other .Parenthesis)
  | "geo" => .ok (Fact.Other .Geo)
  | "awkw" => .ok (Fact.Other .Awkward)
  | "persn" => .ok (Fact.Other .ProperNoun)
  | "dist" => .ok (Fact.Other .Distorted)
  | "mf" => .ok (Fact.Other .CommonForm)
  | "obsc" => .ok (Fact.Other .Obscene)
  | "patrn" => .ok (Fact.Other .Patronymic)
  | "praed" => .ok (Fact.Other .Predicative)
  | "inform" => .ok (Fact.Other .Informal)
  | "rare" => .ok (Fact.Other .Rare)
  | "abbr" => .ok (Fact.Other .Abbreviation)
  | "obsol" => .ok (Fact.Other .Obsolete)
  | "famn" => .ok (Fact.Other .FamilyName)
  | _ => .error (AppError.GrammemError "Failed to get Grammem.")

/-- The part-of-speech table of `PartOfSpeech::from_str`, as an association
list in source order (the keys of the 14 non-wildcard match arms). -/
def pos_table : List (String × PartOfSpeech) :=
  [("A", .Adjective), ("ADV", .Adverb), ("ADVPRO", .AdverbPronominal),
   ("ANUM", .AdjectiveNumeral), ("APRO", .AdjectivePronoun),
   ("COM", .Composite), ("CONJ", .Conjunction), ("INTJ", .Interjection),
   ("NUM", .Numeral), ("PART", .Particle), ("PR", .Preposition),
   ("S", .Noun), ("SPRO", .AdjectiveNoun), ("V", .Verb)]

/-- The fact table of `Fact::from_str`, as an association list in source
order (the keys of the non-wildcard match arms). -/
def fact_table : List (String × Fact) :=
  [("nom", .Case .Nominative), ("gen", .Case .Genitive),
   ("dat", .Case .Dative), ("acc", .Case .Accusative),
   ("ins", .Case .Instrumental), ("abl", .Case .Prepositional),
   ("part", .Case .Partitive), ("loc", .Case .Locative),
   ("voc", .Case .Vocative), ("praes", .Tense .Present),
   ("inpraes", .Tense .Inpresent), ("praet", .Tense .Past),
   ("sg", .Plurality .Singular), ("pl", .Plurality .Plural),
   ("ger", .Mood .Gerunds), ("inf", .Mood .Infinitive),
   ("partcp", .Mood .Participle), ("indic", .Mood .Indicative),
   ("imper", .Mood .Imperative), ("brev", .Adjective .Short),
   ("plen", .Adjective .Long), ("poss", .Adjective .Possessive),
   ("supr", .ComparativeDegree .Superlative),
   ("comp", .ComparativeDegree .Comparative),
   ("1p", .Person .First), ("2p", .Person .Second), ("3p", .Person .Third),
   ("m", .Gender .Masculine), ("f", .Gender .Feminine),
   ("n", .Gender .Neuter), ("pf", .PerfectiveAspect .Perfective),
   ("ipf", .PerfectiveAspect .Imperfective), ("act", .Voice .Active),
   ("pass", .Voice .Passive), ("anim", .Animacy .Animate),
   ("inan", .Animacy .Inanimate), ("tran", .Transitivity .Transitive),
   ("intr", .Transitivity .Intransitive), ("parenth", .Other .Parenthesis),
   ("geo", .Other .Geo), ("awkw", .Other .Awkward),
   ("persn", .Other .ProperNoun), ("dist", .Other .Distorted),
   ("mf", .Other .CommonForm), ("obsc", .Other .Obscene),
   ("patrn", .Other .Patronymic), ("praed", .Other .Predicative),
   ("inform", .Other .Informal), ("rare", .Other .Rare),
   ("abbr", .Other .Abbreviation), ("obsol", .Other .Obsolete),
   ("famn", .Other .FamilyName)]

/-- Outcome of a Rust computation that can return normally, return a typed
`Err`, or panic (an `unwrap` on `Err`/`None`, or an out-of-bounds index). -/
inductive DResult (α : Type) where
  | ok (a : α)
  | error (e : AppError)
  | panic
deriving DecidableEq, Repr

/-- Rust `str::split` with a `char` predicate pattern: splits at every
character satisfying `p`, keeping empty segments (adjacent separators or
separators at either end produce empty segments; the empty input produces
one empty segment). -/
def rust_split (p : Char → Bool) : List Char → List (List Char)
  | [] => [[]]
  | c :: rest =>
    if p c then [] :: rust_split p rest
    else
      match rust_split p rest with
      | [] => [[c]]
      | seg :: segs => (c :: seg) :: segs

/-- The segment list computed by `MyStem::detect_grammems` lines 69-73:
split the tag string on `=` and `,`, then retain only non-empty segments. -/
def segments (gr : String) : List String :=
  ((rust_split (fun c => c = '=' || c = ',') gr.data).map
    (fun l => String.mk l)).filter (fun s => s ≠ "")

/-- The fact-decoding loop of `detect_grammems` lines 76-81:
`.map(|f| Fact::from_str(f).unwrap()).collect()`.  The first segment whose
decoding returns `Err` makes the whole computation panic (`none`). -/
def decode_facts : List String → Option (List Fact)
  | [] => some []
  | f :: fs =>
    match Fact.from_str f with
    | .error _ => none
    | .ok x => (decode_facts fs).map (fun xs => x :: xs)

/-- From `src/lib.rs` lines 68-84: `MyStem::detect_grammems`.  The indexing
`res[0]` on an empty segment list is an out-of-bounds panic; field order of
the Rust struct literal decides which failure fires first: the part of
speech (`?` on `Err`) before the facts (`unwrap` panic). -/
def detect_grammems (gr : String) : DResult Grammem :=
  match segments gr with
  | [] => .panic
  | p :: rest =>
    match PartOfSpeech.from_str p with
    | .error e => .error e
    | .ok pos =>
      match decode_facts rest with
      | none => .panic
      | some facts => .ok ⟨pos, facts, rest⟩

mutual
/-- Modelled from the spec: `serde_json::Value`, the structural JSON value
type of the external `serde_json` collaborator (§4.3 "structural array of
token objects").  A mutual inductive keeps all recursion structural. -/
inductive JValue where
  | null
  | jbool (b : Bool)
  | num (x : Float)
  | str (s : String)
  | arr (xs : JArr)
  | obj (fs : JObj)

inductive JArr where
  | nil
  | cons (hd : JValue) (tl : JArr)

inductive JObj where
  | nil
  | cons (key : String) (val : JValue) (tl : JObj)
end

/-- Modelled from the spec: `serde_json`'s string escaping as used by
`Value`'s `Display`; only the quote and backslash escapes are exercised by
the decoder under verification. -/
def json_escape (s : String) : String :=
  String.mk (s.data.foldr
    (fun c acc =>
      if c = '\"' then '\\' :: '\"' :: acc
      else if c = '\\' then '\\' :: '\\' :: acc
      else c :: acc) [])

mutual
/-- Modelled from the spec: `serde_json::Value::to_string`, the compact
JSON serialization used by `stemming` on the `text`, `lex` and `gr`
fields. -/
def JValue.to_string : JValue → String
  | .null => "null"
  | .jbool b => if b then "true" else "false"
  | .num x => x.toString
  | .str s => "\"" ++ json_escape s ++ "\""
  | .arr xs => "[" ++ JArr.items_to_string xs ++ "]"
  | .obj fs => "\x7b" ++ JObj.items_to_string fs ++ "\x7d"

def JArr.items_to_string : JArr → String
  | .nil => ""
  | .cons x .nil => JValue.to_string x
  | .cons x (.cons y tl) =>
    JValue.to_string x ++ "," ++ JArr.items_to_string (.cons y tl)

def JObj.items_to_string : JObj → String
  | .nil => ""
  | .cons k v .nil => "\"" ++ json_escape k ++ "\":" ++ JValue.to_string v
  | .cons k v (.cons k2 v2 tl) =>
    "\"" ++ json_escape k ++ "\":" ++ JValue.to_string v ++ ","
      ++ JObj.items_to_string (.cons k2 v2 tl)
end

/-- Field lookup in a JSON object, first match wins. -/
def JObj.lookup_field : JObj → String → Option JValue
  | .nil, _ => none
  | .cons k v tl, key => if k = key then some v else JObj.lookup_field tl key

/-- Modelled from the spec: `serde_json` `Value` indexing `v[key]`: the
field of an object when present, `Null` otherwise (also on non-objects). -/
def JValue.index (v : JValue) (key : String) : JValue :=
  match v with
  | .obj fs =>
    match fs.lookup_field key with
    | some x => x
    | none => .null
  | _ => .null

/-- Modelled from the spec: `serde_json` `Value::as_array`. -/
def JValue.as_array : JValue → Option JArr
  | .arr xs => some xs
  | _ => none

/-- Modelled from the spec: `serde_json` `Value::as_f64` restricted to the
number representation carried here. -/
def JValue.as_f64 : JValue → Option Float
  | .num x => some x
  | _ => none

/-- Rust `String::replace(pat, "")` for the one-character pattern `"` used
throughout `stemming` (lines 137, 144, 146): removes every occurrence. -/
def replace_quote (s : String) : String :=
  String.mk (s.data.filter (fun c => c ≠ '\"'))

/-- From `src/lib.rs` lines 22-30: the `Lexeme` struct. -/
structure Lexeme where
  lex : String
  grammem : Grammem
  weight : Float

/-- From `src/lib.rs` lines 33-39: the `Stemming` struct. -/
structure Stemming where
  text : String
  lex : List Lexeme

/-- From `src/lib.rs` lines 143-149: decoding of one analysis candidate
`z`.  The `.unwrap()` on `detect_grammems` turns both its typed errors and
its panics into a panic (`none`). -/
def decode_lexeme (z : JValue) : Option Lexeme :=
  let lex := replace_quote (z.index "lex").to_string
  match detect_grammems (replace_quote (z.index "gr").to_string) with
  | .ok g => some ⟨lex, g, ((z.index "wt").as_f64).getD 1.0⟩
  | _ => none

/-- The `.iter().map(...).collect()` over the `analysis` array: sequential,
the first panicking candidate aborts the whole collection. -/
def decode_lexemes : JArr → Option (List Lexeme)
  | .nil => some []
  | .cons z zs =>
    match decode_lexeme z with
    | none => none
    | some lx => (decode_lexemes zs).map (fun rest => lx :: rest)

/-- From `src/lib.rs` lines 136-152: decoding of one token object `i`.
`i["analysis"].as_array().unwrap()` panics (`none`) when the `analysis`
field is absent or not an array. -/
def decode_token (i : JValue) : Option Stemming :=
  let text := replace_quote (i.index "text").to_string
  match (i.index "analysis").as_array with
  | none => none
  | some zs => (decode_lexemes zs).map (fun lexs => ⟨text, lexs⟩)

/-- From `src/lib.rs` lines 135-153: the `for i in v` loop pushing one
`Stemming` per token; a panic at any token aborts the call. -/
def decode_tokens : List JValue → Option (List Stemming)
  | [] => some []
  | i :: rest =>
    match decode_token i with
    | none => none
    | some st => (decode_tokens rest).map (fun sts => st :: sts)

/-- Modelled from the spec: Rust `char::is_whitespace`, the Unicode
White_Space property, used by `str::trim`. -/
def char_is_whitespace (c : Char) : Bool :=
  c = ' ' || c = '\t' || c = '\n' || c = '\x0b' || c = '\x0c' || c = '\r' ||
  c = '\u0085' || c = '\u00a0' || c = '\u1680' ||
  ('\u2000' ≤ c && c ≤ '\u200a') ||
  c = '\u2028' || c = '\u2029' || c = '\u202f' || c = '\u205f' || c = '\u3000'

/-- Rust `str::trim`: strip whitespace from both ends. -/
def rust_trim (s : List Char) : List Char :=
  ((s.dropWhile char_is_whitespace).reverse.dropWhile char_is_whitespace).reverse

/-- Rust `String::replace(c, "")` for a `char` pattern `c` (line 114):
removes every occurrence of `c`. -/
def remove_all (c : Char) (s : List Char) : List Char :=
  s.filter (fun x => x ≠ c)

/-- From `src/lib.rs` lines 111-116: the sanitizer inside `stemming`.
`text.trim()` first, then one pass over a clone of the trimmed text,
removing every character that is neither alphabetic nor a plain space.
Rust `char::is_alphabetic` (the Unicode Alphabetic property) is external
library code and enters as the oracle `alpha`. -/
def sanitize (alpha : Char → Bool) (text : String) : String :=
  let clean_text := rust_trim text.data
  String.mk (clean_text.foldl
    (fun acc c => if !(alpha c) && c != ' ' then remove_all c acc else acc)
    clean_text)

/-- Modelled from the spec: Rust `char::is_alphabetic` on the character
ranges exercised by the repository's examples — ASCII letters and the
Cyrillic block (all of whose code points carry the Unicode Alphabetic
property). -/
def is_alphabetic_ru (c : Char) : Bool :=
  ('A' ≤ c && c ≤ 'Z') || ('a' ≤ c && c ≤ 'z') ||
  ('\u0400' ≤ c && c ≤ '\u04ff')

/-- From `src/lib.rs` line 18 and the `subprocess` crate: the worker
process handle, abstracted to its process id. -/
structure Proc where
  pid : Nat
deriving DecidableEq, Repr

/-- Modelled from the spec: the `subprocess` crate's `ExitStatus` returned
by `poll()` when the worker has exited. -/
inductive ExitStatus where
  | Exited (code : Nat)
  | Signaled (sig : Nat)
  | Undetermined
deriving DecidableEq, Repr

/-- From `src/lib.rs` lines 111-157: the exchange-and-decode tail of
`stemming`.  Writing the sanitized line and reading one response line back
through `serde_json::from_str::<Vec<Value>>` is the oracle `respond`
(`.error` = the line does not parse as a structural JSON array, the
`Err(_) => return Ok(vec![])` branch of line 133). -/
def stemming_exchange (p : Proc)
    (respond : String → Except Unit (List JValue))
    (alpha : Char → Bool) (text : String) : DResult (Proc × List Stemming) :=
  let clean_text := sanitize alpha text
  match respond clean_text with
  | .error _ => .ok (p, [])
  | .ok v =>
    match decode_tokens v with
    | none => .panic
    | some st => .ok (p, st)

/-- From `src/lib.rs` lines 102-158: `MyStem::stemming`, with the mutable
`self.process` made explicit state.  Lines 103-110: a non-blocking `poll`
(its answer is the parameter `poll`); when the worker has exited,
`open_process` (outcome: the parameter `spawn`) is invoked once, `?`
propagates its failure, and the very same call proceeds on the fresh
handle. -/
def stemming (p : Proc) (poll : Option ExitStatus)
    (spawn : Except PopenError Proc)
    (respond : String → Except Unit (List JValue))
    (alpha : Char → Bool) (text : String) : DResult (Proc × List Stemming) :=
  match poll with
  | some _ =>
    match spawn with
    | .error e => .error (AppError.PopenErr e)
    | .ok q => stemming_exchange q respond alpha text
  | none => stemming_exchange p respond alpha text

/-- Discriminator: did a computation end in a typed `Err`? -/
def DResult.is_error : DResult α → Bool
  | .error _ => true
  | _ => false

/-- A syntactically well-formed worker response with one token whose single
analysis candidate carries the tag string `S=zzz`: a known part-of-speech
code followed by an unknown fact code.  Its JSON line form is
`[{"text":"x","analysis":[{"lex":"x","gr":"S=zzz"}]}]`. -/
def bad_fact_response : List JValue :=
  [JValue.obj (JObj.cons "text" (.str "x")
    (JObj.cons "analysis" (JValue.arr (JArr.cons
      (JValue.obj (JObj.cons "lex" (.str "x")
        (JObj.cons "gr" (.str "S=zzz") JObj.nil)))
      JArr.nil)) JObj.nil))]

example : segments "S,persn=nom,sg" = ["S", "persn", "nom", "sg"] := by decide
example : segments "" = [] := by decide
example : segments ",," = [] := by decide
example : detect_grammems "S=nom,sg" =
    .ok ⟨.Noun, [.Case .Nominative, .Plurality .Singular], ["nom", "sg"]⟩ := by
  decide
example : detect_grammems "ZZZ" =
    .error (AppError.PartOfSpeechError "Failed to get Part of Speech.") := by
  decide
example : detect_grammems "S=zzz" = .panic := by decide
example : detect_grammems "" = .panic := by decide

/-- A string outside the part-of-speech table decodes to the
`PartOfSpeechError` of the wildcard arm of `PartOfSpeech::from_str`. -/
theorem from_str_pos_of_not_mem (s : String)
    (h : s ∉ pos_table.map Prod.fst) :
    PartOfSpeech.from_str s =
      .error (AppError.PartOfSpeechError "Failed to get Part of Speech.") := by
  unfold PartOfSpeech.from_str
  split <;> first
    | rfl
    | exact absurd (by decide) h

/-- A string outside the fact table decodes to the `GrammemError` of the
wildcard arm of `Fact::from_str`. -/
theorem from_str_fact_of_not_mem (s : String)
    (h : s ∉ fact_table.map Prod.fst) :
    Fact.from_str s =
      .error (AppError.GrammemError "Failed to get Grammem.") := by
  unfold Fact.from_str
  split <;> first
    | rfl
    | exact absurd (by decide) h

/-- When the fact-decoding loop succeeds, every raw segment decoded to
exactly the fact at the same position. -/
theorem decode_facts_sound (fs : List String) (xs : List Fact)
    (h : decode_facts fs = some xs) :
    fs.map Fact.from_str = xs.map Except.ok := by
  induction fs generalizing xs with
  | nil => simp [decode_facts] at h; subst h; simp
  | cons f fs ih =>
    simp only [decode_facts] at h
    cases hf : Fact.from_str f with
    | error e => simp [hf] at h
    | ok x =>
      simp only [hf] at h
      cases hrest : decode_facts fs with
      | none => simp [hrest] at h
      | some ys =>
        simp [hrest] at h
        subst h
        simp [hf, ih ys hrest]

/-- One undecodable segment anywhere in the list makes the fact-decoding
loop panic. -/
theorem decode_facts_none_of_mem (fs : List String) (f : String)
    (e : AppError) (hmem : f ∈ fs) (herr : Fact.from_str f = .error e) :
    decode_facts fs = none := by
  induction fs with
  | nil => simp at hmem
  | cons g gs ih =>
    rcases List.mem_cons.mp hmem with rfl | hmem'
    · simp [decode_facts, herr]
    · simp only [decode_facts]
      cases hg : Fact.from_str g with
      | error _ => rfl
      | ok x => simp [ih hmem']

/-- The removal loop of the sanitizer, folded over any iteration list,
filters out exactly the bad characters occurring in that list. -/
theorem foldl_remove_eq_filter (bad : Char → Bool) (iter acc : List Char) :
    List.foldl (fun acc c => if bad c then remove_all c acc else acc) acc iter
      = acc.filter (fun x => !(bad x && decide (x ∈ iter))) := by
  induction iter generalizing acc with
  | nil => simp
  | cons c cs ih =>
    simp only [List.foldl_cons]
    rw [ih]
    by_cases hbc : bad c = true
    · rw [if_pos hbc]
      unfold remove_all
      rw [List.filter_filter]
      refine List.filter_congr ?_
      intro x hx
      by_cases hxc : x = c
      · subst hxc; simp [hbc]
      · simp [hxc, List.mem_cons]
    · rw [if_neg hbc]
      refine List.filter_congr ?_
      intro x hx
      by_cases hxc : x = c
      · subst hxc
        simp only [Bool.not_eq_true] at hbc
        simp [hbc, List.mem_cons]
      · simp [hxc, List.mem_cons]

/-- The sanitizer equals: trim, then keep exactly the characters that are
alphabetic or a plain space. -/
theorem sanitize_eq_filter (alpha : Char → Bool) (text : String) :
    sanitize alpha text
      = String.mk ((rust_trim text.data).filter
          (fun c => alpha c || c == ' ')) := by
  unfold sanitize
  dsimp only
  rw [foldl_remove_eq_filter (fun c => !alpha c && c != ' ')]
  congr 1
  refine List.filter_congr ?_
  intro x hx
  simp [hx, bne]

/-- C1 (counterexample): on a well-formed response whose single candidate
carries the tag string `S=zzz` (known part of speech, unknown fact
segment), `stemming` panics; the `GrammemError` produced by
`Fact::from_str` is never surfaced to the caller as a typed error. -/
theorem C1_counterexample :
    stemming ⟨1⟩ none (.ok ⟨2⟩) (fun _ => .ok bad_fact_response)
        is_alphabetic_ru "x" = .panic
      ∧ (stemming ⟨1⟩ none (.ok ⟨2⟩) (fun _ => .ok bad_fact_response)
        is_alphabetic_ru "x").is_error = false :=
  ⟨rfl, rfl⟩

/-- C1 (amended): for every tag string with a known part-of-speech code
followed by at least one fact segment that is not in the fact table,
`Fact::from_str` fails with a `GrammemError`, but `detect_grammems`
unwraps each fact decoding, so the whole decoding aborts with a panic
rather than a typed error returned to the caller of `stemming`. -/
theorem C1_amended_panic (gr s0 f : String) (rest : List String)
    (pos : PartOfSpeech)
    (h1 : segments gr = s0 :: rest)
    (h2 : PartOfSpeech.from_str s0 = .ok pos)
    (h3 : f ∈ rest) (h4 : f ∉ fact_table.map Prod.fst) :
    Fact.from_str f = .error (AppError.GrammemError "Failed to get Grammem.")
      ∧ detect_grammems gr = .panic := by
  have herr := from_str_fact_of_not_mem f h4
  refine ⟨herr, ?_⟩
  unfold detect_grammems
  rw [h1]
  dsimp only
  rw [h2]
  dsimp only
  rw [decode_facts_none_of_mem rest f _ h3 herr]

/-- C1 (witness): the amended statement at the tag string `S=zzz`. -/
theorem C1_witness :
    Fact.from_str "zzz"
        = .error (AppError.GrammemError "Failed to get Grammem.")
      ∧ detect_grammems "S=zzz" = .panic :=
  C1_amended_panic "S=zzz" "S" "zzz" ["zzz"] .Noun (by decide) rfl
    (by decide) (by decide)

/-- C2: on every tag string on which `detect_grammems` succeeds, the facts
and the raw facts have the same length, each fact is the decoding of the
raw segment at the same position, and the raw facts are exactly the
post-first (non-empty) segments of the tag string, in order. -/
theorem C2_round_trip (gr : String) (g : Grammem)
    (h : detect_grammems gr = .ok g) :
    g.facts.length = g.facts_raw.length
      ∧ g.facts_raw.map Fact.from_str = g.facts.map Except.ok
      ∧ g.facts_raw = (segments gr).tail := by
  unfold detect_grammems at h
  cases hseg : segments gr with
  | nil => rw [hseg] at h; simp at h
  | cons s0 rest =>
    rw [hseg] at h
    dsimp only at h
    cases hpos : PartOfSpeech.from_str s0 with
    | error e => rw [hpos] at h; simp at h
    | ok pos =>
      rw [hpos] at h
      dsimp only at h
      cases hdf : decode_facts rest with
      | none => rw [hdf] at h; simp at h
      | some xs =>
        rw [hdf] at h
        dsimp only at h
        have hg : g = ⟨pos, xs, rest⟩ := by
          cases h; rfl
        subst hg
        have hsound := decode_facts_sound rest xs hdf
        refine ⟨?_, hsound, rfl⟩
        have := congrArg List.length hsound
        simpa using this.symm

/-- C2 (witness): the invariant at the concrete tag string `S=nom,sg`. -/
theorem C2_witness :
    (Grammem.mk .Noun [Fact.Case .Nominative, Fact.Plurality .Singular]
        ["nom", "sg"]).facts.length
        = (Grammem.mk .Noun [Fact.Case .Nominative, Fact.Plurality .Singular]
        ["nom", "sg"]).facts_raw.length
      ∧ (Grammem.mk .Noun [Fact.Case .Nominative, Fact.Plurality .Singular]
        ["nom", "sg"]).facts_raw.map Fact.from_str
        = (Grammem.mk .Noun [Fact.Case .Nominative, Fact.Plurality .Singular]
        ["nom", "sg"]).facts.map Except.ok
      ∧ (Grammem.mk .Noun [Fact.Case .Nominative, Fact.Plurality .Singular]
        ["nom", "sg"]).facts_raw = (segments "S=nom,sg").tail :=
  C2_round_trip "S=nom,sg" _ (by decide)



/-- C3: whenever the response line does not parse as a structural JSON
array (the `respond` oracle reports a parse failure for the line written),
`stemming` returns `Ok` with an empty result list; the malformation is
never surfaced as an error. -/
theorem C3_unparsable_empty_ok (p : Proc) (spawn : Except PopenError Proc)
    (respond : String → Except Unit (List JValue)) (alpha : Char → Bool)
    (text : String) (e : Unit)
    (h : respond (sanitize alpha text) = .error e) :
    stemming p none spawn respond alpha text = .ok (p, []) := by
  unfold stemming stemming_exchange
  dsimp only
  rw [h]

/-- C3 (witness): a concrete call whose response line is unparsable. -/
theorem C3_witness :
    stemming ⟨1⟩ none (.ok ⟨2⟩) (fun _ => .error ()) is_alphabetic_ru "hi"
      = .ok (⟨1⟩, []) :=
  C3_unparsable_empty_ok ⟨1⟩ (.ok ⟨2⟩) (fun _ => .error ())
    is_alphabetic_ru "hi" () rfl

/-- C4: a tag string whose first non-empty segment is not in the
part-of-speech table makes `detect_grammems` fail with the
`PartOfSpeechError`, aborting the decoding of that candidate. -/
theorem C4_unknown_pos_error (gr s0 : String) (rest : List String)
    (h1 : segments gr = s0 :: rest)
    (h2 : s0 ∉ pos_table.map Prod.fst) :
    detect_grammems gr =
      .error (AppError.PartOfSpeechError "Failed to get Part of Speech.") := by
  unfold detect_grammems
  rw [h1]
  dsimp only
  rw [from_str_pos_of_not_mem s0 h2]

/-- C4 (witness): the unknown code `ZZZ`. -/
theorem C4_witness :
    detect_grammems "ZZZ" =
      .error (AppError.PartOfSpeechError "Failed to get Part of Speech.") :=
  C4_unknown_pos_error "ZZZ" "ZZZ" [] (by decide) (by decide)

/-- C5: the part-of-speech table has exactly the 14 codes, and decoding
each code alone yields the corresponding enumeration value with empty
facts and empty raw facts. -/
theorem C5_pos_codes_decode :
    pos_table.length = 14
      ∧ ∀ pr ∈ pos_table, detect_grammems pr.1 = .ok ⟨pr.2, [], []⟩ := by
  decide

/-- C5 (witness): the code `A` alone. -/
theorem C5_witness :
    detect_grammems "A" = .ok ⟨.Adjective, [], []⟩ :=
  C5_pos_codes_decode.2 ("A", .Adjective) (by decide)

/-- C6 (counterexample): the fact table has 52 codes, not 51 as the claim
counts them. -/
theorem C6_counterexample :
    fact_table.length = 52 ∧ ¬ fact_table.length = 51 := by decide

/-- C6 (amended): for every one of the 52 codes in the fact table,
decoding `S=<code>` yields a Grammem whose part of speech is `Noun` and
whose facts list contains exactly the one `Fact` matching that code. -/
theorem C6_fact_codes_decode :
    fact_table.length = 52
      ∧ ∀ pr ∈ fact_table,
          detect_grammems ("S=" ++ pr.1) = .ok ⟨.Noun, [pr.2], [pr.1]⟩ := by
  decide

/-- C6 (witness): `S=nom` maps to Case Nominative and `S=pf` to
PerfectiveAspect Perfective. -/
theorem C6_witness :
    detect_grammems "S=nom"
        = .ok ⟨.Noun, [Fact.Case .Nominative], ["nom"]⟩
      ∧ detect_grammems "S=pf"
        = .ok ⟨.Noun, [Fact.PerfectiveAspect .Perfective], ["pf"]⟩ :=
  ⟨C6_fact_codes_decode.2 ("nom", Fact.Case .Nominative) (by decide),
   C6_fact_codes_decode.2 ("pf", Fact.PerfectiveAspect .Perfective)
     (by decide)⟩

/-- C7: for every alphabetic-classification oracle and every input text,
the sanitizer trims the text and then removes every character that is
neither alphabetic nor a plain space; in particular the spec's concrete
example sanitizes as stated (hyphen and period removed, double space
left). -/
theorem C7_sanitizer :
    (∀ (alpha : Char → Bool) (text : String),
        sanitize alpha text
          = String.mk ((rust_trim text.data).filter
              (fun c => alpha c || c == ' ')))
      ∧ sanitize is_alphabetic_ru "Связался с лучшим - подохни как все."
        = "Связался с лучшим  подохни как все" :=
  ⟨sanitize_eq_filter, by decide⟩

/-- C8: the worker's exit status is polled before the exchange; when the
worker has exited and the respawn succeeds, the same call proceeds with
the freshly started handle (one restart, no error surfaced by the restart
itself); when the worker is alive the old handle is used unchanged; when
the respawn fails, the failure propagates as a typed error to the caller
of that call. -/
theorem C8_restart_semantics (p q : Proc) (es : ExitStatus) (e : PopenError)
    (spawn : Except PopenError Proc)
    (respond : String → Except Unit (List JValue)) (alpha : Char → Bool)
    (text : String) :
    stemming p (some es) (.ok q) respond alpha text
        = stemming_exchange q respond alpha text
      ∧ stemming p none spawn respond alpha text
        = stemming_exchange p respond alpha text
      ∧ stemming p (some es) (.error e) respond alpha text
        = .error (AppError.PopenErr e) :=
  ⟨rfl, rfl, rfl⟩

/-- C9: a tag string with no non-empty segment (such as `""` or `,,`)
makes `detect_grammems` panic on the out-of-bounds index `res[0]` instead
of returning a typed error. -/
theorem C9_no_segment_panics (gr : String) (h : segments gr = []) :
    detect_grammems gr = .panic := by
  unfold detect_grammems
  rw [h]

/-- C9 (witness): the empty tag string and `,,`. -/
theorem C9_witness :
    segments "" = [] ∧ segments ",," = []
      ∧ detect_grammems "" = .panic ∧ detect_grammems ",," = .panic :=
  ⟨by decide, by decide, C9_no_segment_panics "" (by decide),
    C9_no_segment_panics ",," (by decide)⟩

/-- C10: on the response line `[{}]` — a structural JSON array whose
element lacks an `analysis` field — `stemming` neither returns an empty
result list nor a typed error: the unchecked `as_array().unwrap()`
panics. -/
theorem C10_missing_analysis_panics :
    stemming ⟨1⟩ none (.ok ⟨2⟩) (fun _ => .ok [JValue.obj JObj.nil])
        is_alphabetic_ru "x" = .panic
      ∧ (stemming ⟨1⟩ none (.ok ⟨2⟩) (fun _ => .ok [JValue.obj JObj.nil])
        is_alphabetic_ru "x").is_error = false :=
  ⟨rfl, rfl⟩

end Mystem
